import Mathlib

/-!
Verification of the resilient LLM client layer of the note-taking app
(`lib/ai/utils.ts`, `lib/ai/errors.ts`, `lib/ai/gemini-client.ts`,
`lib/ai/tag-generation.ts`).

Strings are modelled as `List Char`; all the characters involved are in the
basic multilingual plane, where JavaScript's UTF-16 `String.length` coincides
with the character count.  JavaScript number arithmetic is modelled exactly
over `Nat`/`Rat`; the two places where the source multiplies by a non-dyadic
float literal (`maxTokens * 0.3`, `length * ratio * 0.9`) are modelled by the
exact rational value, i.e. `m * 3 / 10` and `⌊len · max · 9 / (est · 10)⌋`.
Side effects (console logging, sleeping between retries) are dropped; the
timer race of `withTimeout` is not modelled as such, but the error value the
timer rejects with is (`timeoutErrorRaw`), and the per-attempt outcome of
`withTimeout(callGeminiAPI(request))` is supplied by an oracle.
-/

set_option maxRecDepth 16384

namespace AiMemo

/-- Strings as lists of characters. -/
abbrev Str := List Char

/-- Conversion from Lean string literals. -/
def ofString (s : String) : Str := s.data

/-- The WhiteSpace/LineTerminator set used by JavaScript `String.prototype.trim`. -/
def jsIsWhitespace (c : Char) : Bool :=
  decide (c = ' ' ∨ c = '\t' ∨ c = '\n' ∨ c = '\r' ∨ c.toNat = 0x0B ∨ c.toNat = 0x0C ∨
    c.toNat = 0xA0 ∨ c.toNat = 0x1680 ∨ (0x2000 ≤ c.toNat ∧ c.toNat ≤ 0x200A) ∨
    c.toNat = 0x2028 ∨ c.toNat = 0x2029 ∨ c.toNat = 0x202F ∨ c.toNat = 0x205F ∨
    c.toNat = 0x3000 ∨ c.toNat = 0xFEFF)

/-- JavaScript `text.trim()`: strip whitespace from both ends. -/
def jsTrim (l : Str) : Str :=
  ((l.dropWhile jsIsWhitespace).reverse.dropWhile jsIsWhitespace).reverse

/-- JavaScript `text.split(c)` for a single-character separator. -/
def splitOnChar (c : Char) : Str → List Str
  | [] => [[]]
  | a :: rest =>
    match splitOnChar c rest with
    | [] => [[]]
    | h :: t => if a = c then [] :: h :: t else (a :: h) :: t

/-- Index of the last occurrence of `c` (JavaScript `lastIndexOf`, `none` for -1). -/
def lastIndexOfChar (c : Char) : Str → Option Nat
  | [] => none
  | a :: rest =>
    match lastIndexOfChar c rest with
    | some i => some (i + 1)
    | none => if a = c then some 0 else none

/-- JavaScript `s.includes(pat)`. -/
def strContains (s : Str) (pat : Str) : Bool := decide (pat <:+: s)

/-- JavaScript `x || d` on an optional number: `undefined` and `0` are falsy. -/
def jsOrNat (x : Option Nat) (d : Nat) : Nat :=
  match x with
  | some n => if n = 0 then d else n
  | none => d

/-- JavaScript `x || d` on an optional rational: `undefined` and `0` are falsy. -/
def jsOrRat (x : Option Rat) (d : Rat) : Rat :=
  match x with
  | some q => if q = 0 then d else q
  | none => d

/-- JavaScript `x || d` on an optional string: `undefined` and `""` are falsy. -/
def jsOrStr (x : Option Str) (d : Str) : Str :=
  match x with
  | some s => if s = [] then d else s
  | none => d

/-- JavaScript `s || d` on a string: the empty string is falsy. -/
def jsOrStrD (s : Str) (d : Str) : Str := if s = [] then d else s

/-! ### lib/ai/utils.ts — token estimation, validation, truncation -/

/-- Test for the Hangul syllable block `[가-힣]` (U+AC00 – U+D7A3). -/
def isHangulSyllable (c : Char) : Bool :=
  decide (0xAC00 ≤ c.toNat ∧ c.toNat ≤ 0xD7A3)

/-- Source `estimateTokens` (utils.ts): `Math.ceil(koreanChars * 1.5 + otherChars * 0.25)`.
Over naturals, `⌈(6k + o) / 4⌉ = (6k + o + 3) / 4`; the float computation is exact
(1.5 and 0.25 are dyadic). -/
def estimateTokens (text : Str) : Nat :=
  let koreanChars := text.countP isHangulSyllable
  let otherChars := text.length - koreanChars
  (6 * koreanChars + otherChars + 3) / 4

/-- Source `validateTokenLimit` (utils.ts); `Math.floor(maxTokens * 0.3)` is modelled
by `maxTokens * 3 / 10` (exact for the integer ranges validated in config.ts). -/
def validateTokenLimit (inputTokens : Nat) (maxTokens : Nat) : Bool :=
  let dynamicReserve := maxTokens * 3 / 10
  let reservedTokens := min 2000 dynamicReserve
  let allowedInput := max 1 (maxTokens - reservedTokens)
  decide (inputTokens ≤ allowedInput)

/-- Source `truncateText` (utils.ts).  `Math.floor(text.length * ratio * 0.9)` with
`ratio = maxTokens / estimatedTokens` is modelled by the exact rational floor
`len * maxTokens * 9 / (est * 10)`. -/
def truncateText (text : Str) (maxTokens : Nat) : Str :=
  let estimatedTokens := estimateTokens text
  if estimatedTokens ≤ maxTokens then text
  else
    let targetLength := text.length * maxTokens * 9 / (estimatedTokens * 10)
    let truncated := text.take targetLength
    match lastIndexOfChar ' ' truncated with
    | some lastSpaceIndex =>
      if 0 < lastSpaceIndex then truncated.take lastSpaceIndex else truncated
    | none => truncated

/-! ### lib/ai/errors.ts — error taxonomy and classifier -/

/-- Source `GeminiErrorType` enum.  The last two constructors are the string
values `'INVALID_INPUT'` and `'API_ERROR'` that tag-generation.ts casts into the
type; they are not members of the declared enum. -/
inductive GeminiErrorType where
  | API_KEY_INVALID
  | QUOTA_EXCEEDED
  | TIMEOUT
  | CONTENT_FILTERED
  | NETWORK_ERROR
  | TOKEN_LIMIT_EXCEEDED
  | MODEL_NOT_FOUND
  | UNKNOWN
  | INVALID_INPUT
  | API_ERROR
  deriving DecidableEq, Repr, BEq

/-- Source `GeminiError` class. The opaque `originalError` payload is not
modelled (it is stored but never read by the code under study). -/
structure GeminiError where
  type : GeminiErrorType
  message : Str
  statusCode : Option Nat := none
  deriving DecidableEq, Repr

/-- Source `GeminiError.isRetryable`. -/
def GeminiError.isRetryable (e : GeminiError) : Bool :=
  [GeminiErrorType.NETWORK_ERROR, GeminiErrorType.TIMEOUT,
    GeminiErrorType.QUOTA_EXCEEDED].contains e.type

/-- Source `GeminiError.getUserMessage`. -/
def GeminiError.getUserMessage (e : GeminiError) : Str :=
  match e.type with
  | GeminiErrorType.API_KEY_INVALID => ofString "API 키가 유효하지 않습니다. 설정을 확인해주세요."
  | GeminiErrorType.QUOTA_EXCEEDED => ofString "API 사용량 한도를 초과했습니다. 잠시 후 다시 시도해주세요."
  | GeminiErrorType.TIMEOUT => ofString "요청 시간이 초과되었습니다. 다시 시도해주세요."
  | GeminiErrorType.CONTENT_FILTERED => ofString "콘텐츠가 필터링되었습니다. 다른 내용으로 시도해주세요."
  | GeminiErrorType.TOKEN_LIMIT_EXCEEDED => ofString "텍스트가 너무 깁니다. 더 짧은 내용으로 시도해주세요."
  | GeminiErrorType.MODEL_NOT_FOUND => ofString "요청한 AI 모델을 찾을 수 없습니다."
  | GeminiErrorType.NETWORK_ERROR => ofString "네트워크 연결에 문제가 있습니다. 연결을 확인해주세요."
  | _ => ofString "알 수 없는 오류가 발생했습니다. 다시 시도해주세요."

/-- Shape of a raw thrown value as inspected by `parseGeminiError`
(`error.message`, `error.status`, `error.name`, `error.code`); `isErrorInstance`
records whether the value is an `instanceof Error` (used by tag-generation.ts). -/
structure RawError where
  message : Option Str := none
  status : Option Nat := none
  name : Option Str := none
  code : Option Str := none
  isErrorInstance : Bool := true
  deriving DecidableEq, Repr

/-- JavaScript `error.message?.includes(pat)` (undefined message is falsy). -/
def msgContains (e : RawError) (pat : String) : Bool :=
  match e.message with
  | some m => strContains m (ofString pat)
  | none => false

/-- Source `parseGeminiError` (errors.ts): the ordered first-match-wins cascade. -/
def parseGeminiError (error : RawError) : GeminiError :=
  if msgContains error "API key" || error.status == some 401 then
    { type := GeminiErrorType.API_KEY_INVALID, message := ofString "Invalid API key",
      statusCode := error.status }
  else if error.status == some 429 || msgContains error "quota" then
    { type := GeminiErrorType.QUOTA_EXCEEDED, message := ofString "API quota exceeded",
      statusCode := error.status }
  else if error.name == some (ofString "TimeoutError") || error.code == some (ofString "TIMEOUT") then
    { type := GeminiErrorType.TIMEOUT, message := ofString "Request timeout" }
  else if msgContains error "content" && msgContains error "filter" then
    { type := GeminiErrorType.CONTENT_FILTERED, message := ofString "Content filtered",
      statusCode := error.status }
  else if msgContains error "token" && msgContains error "limit" then
    { type := GeminiErrorType.TOKEN_LIMIT_EXCEEDED, message := ofString "Token limit exceeded",
      statusCode := error.status }
  else if error.status == some 404 || msgContains error "model" then
    { type := GeminiErrorType.MODEL_NOT_FOUND, message := ofString "Model not found",
      statusCode := error.status }
  else if error.code == some (ofString "ENOTFOUND") || error.code == some (ofString "ECONNREFUSED") then
    { type := GeminiErrorType.NETWORK_ERROR, message := ofString "Network error" }
  else
    { type := GeminiErrorType.UNKNOWN,
      message := match error.message with
        | some m => jsOrStrD m (ofString "Unknown error")
        | none => ofString "Unknown error",
      statusCode := error.status }

/-- A thrown JavaScript value: either a `GeminiError` instance or any other value. -/
inductive Thrown where
  | gemini (e : GeminiError)
  | raw (e : RawError)
  deriving DecidableEq, Repr

/-- How `parseGeminiError` sees a thrown `GeminiError` instance: its `name` is
`'GeminiError'`, it has a `message`, and no `status`/`code` own properties. -/
def rawOfThrown : Thrown → RawError
  | Thrown.raw e => e
  | Thrown.gemini g =>
    { message := some g.message, status := none, name := some (ofString "GeminiError"),
      code := none, isErrorInstance := true }

/-- Source `isNonRetryableError` (errors.ts): use the error if it already is a
`GeminiError`, otherwise classify it first. -/
def isNonRetryableError (t : Thrown) : Bool :=
  let geminiError :=
    match t with
    | Thrown.gemini g => g
    | Thrown.raw e => parseGeminiError e
  ! geminiError.isRetryable

/-- Classification as done in the `catch` of `generateText`, which applies
`parseGeminiError` to whatever was thrown (even a `GeminiError` instance). -/
def parseGeminiErrorAny (t : Thrown) : GeminiError :=
  parseGeminiError (rawOfThrown t)

/-! ### lib/ai/utils.ts — retry and timeout -/

/-- Loop body of source `withRetry` (utils.ts): `fuel` counts the remaining
iterations of `for (attempt = 1; attempt <= maxRetries; attempt++)`, and the
result is paired with the number of attempts performed.  The error component
`none` models the `throw lastError!` with `lastError` still `undefined`, which
happens exactly when the loop body never ran. -/
def withRetryGo {α : Type} (op : Nat → Except Thrown α) :
    Nat → Nat → Option Thrown → Except (Option Thrown) α × Nat
  | _attempt, 0, lastError => (Except.error lastError, 0)
  | attempt, fuel + 1, _lastError =>
    match op attempt with
    | Except.ok v => (Except.ok v, 1)
    | Except.error e =>
      if isNonRetryableError e then (Except.error (some e), 1)
      else
        let r := withRetryGo op (attempt + 1) fuel (some e)
        (r.1, r.2 + 1)

/-- Source `withRetry` (utils.ts), with the backoff sleeps dropped.  Returns the
outcome together with how many times `op` was attempted. -/
def withRetry {α : Type} (op : Nat → Except Thrown α) (maxRetries : Nat) :
    Except (Option Thrown) α × Nat :=
  withRetryGo op 1 maxRetries none

/-- The value the timer of source `withTimeout` (utils.ts) rejects with:
`new Error('Operation timed out after ' + timeoutMs + 'ms')` — a plain `Error`,
whose `name` is `'Error'` and which has no `code` property. -/
def timeoutErrorRaw (timeoutMs : Nat) : RawError :=
  { message := some (ofString "Operation timed out after " ++ ofString (toString timeoutMs)
      ++ ofString "ms"),
    status := none, name := some (ofString "Error"), code := none, isErrorInstance := true }

/-! ### lib/ai/gemini-client.ts — the LLM client call path -/

/-- Source `GeminiConfig` (types.ts). -/
structure GeminiConfig where
  apiKey : Str
  model : Str
  maxTokens : Nat
  timeout : Nat
  debug : Bool
  rateLimitPerMinute : Nat
  deriving DecidableEq, Repr

/-- Source `GenerateTextRequest` (types.ts). -/
structure GenerateTextRequest where
  prompt : Str
  model : Option Str := none
  maxTokens : Option Nat := none
  temperature : Option Rat := none
  deriving DecidableEq, Repr

/-- Source `GenerateTextResponse` (types.ts). -/
structure GenerateTextResponse where
  text : Str
  model : Str
  inputTokens : Nat
  outputTokens : Nat
  finishReason : Str
  deriving DecidableEq, Repr

/-- The request `callGeminiAPI` issues to `client.models.generateContent`. -/
structure ProviderRequest where
  model : Str
  contents : Str
  maxOutputTokens : Nat
  temperature : Rat
  topP : Rat
  topK : Nat
  deriving DecidableEq, Repr

/-- The argument of `this.client.models.generateContent` in source
`callGeminiAPI` (gemini-client.ts lines 140-148): `request.model || config.model`,
`maxOutputTokens: request.maxTokens || config.maxTokens`,
`temperature: request.temperature || 0.7`, `topP: 0.9`, `topK: 40`. -/
def buildProviderRequest (config : GeminiConfig) (request : GenerateTextRequest) :
    ProviderRequest :=
  { model := jsOrStr request.model config.model,
    contents := request.prompt,
    maxOutputTokens := jsOrNat request.maxTokens config.maxTokens,
    temperature := jsOrRat request.temperature (7 / 10),
    topP := 9 / 10,
    topK := 40 }

/-- What one attempt of `withTimeout(callGeminiAPI(request), config.timeout)` may
do, as chosen by an environment oracle: the provider answers, the provider (or
transport) throws, or the timer fires first. -/
inductive AttemptBehavior where
  | respond (text : Str) (finishReason : Option Str)
  | fail (e : Thrown)
  | timesOut
  deriving Repr

/-- Value thrown by source `callGeminiAPI` when `response.text` is empty:
`new Error('Empty response from Gemini API')`. -/
def emptyResponseErrorRaw : RawError :=
  { message := some (ofString "Empty response from Gemini API"), status := none,
    name := some (ofString "Error"), code := none, isErrorInstance := true }

/-- Result of `callGeminiAPI` on success. -/
structure CallResult where
  text : Str
  finishReason : Str
  deriving DecidableEq, Repr

/-- Outcome of attempt number `n` of `withTimeout(callGeminiAPI(request))`:
`callGeminiAPI` rejects an empty `response.text` (`!response.text`) and defaults
the finish reason with `|| 'stop'`; a fired timer rejects with the plain timeout
`Error`. -/
def callGeminiAPIAttempt (config : GeminiConfig) (behavior : Nat → AttemptBehavior)
    (n : Nat) : Except Thrown CallResult :=
  match behavior n with
  | AttemptBehavior.respond text finishReason =>
    if text = [] then Except.error (Thrown.raw emptyResponseErrorRaw)
    else Except.ok { text := text, finishReason := jsOrStr finishReason (ofString "stop") }
  | AttemptBehavior.fail e => Except.error e
  | AttemptBehavior.timesOut => Except.error (Thrown.raw (timeoutErrorRaw config.timeout))

/-- One run of `generateText`: its outcome, the provider request that was issued
(`none` when the call path short-circuited before any remote call), and the
number of attempts made against the provider. -/
structure GenerateTextRun where
  result : Except GeminiError GenerateTextResponse
  sentRequest : Option ProviderRequest
  attempts : Nat
  deriving Repr

/-- The `try`-block of source `generateText` after the pre-flight check passed:
`withRetry(() => withTimeout(callGeminiAPI(request), config.timeout))` with the
default `maxRetries = 3`, then response shaping on success and
`parseGeminiError` on failure.  `inputTokens` was computed from the original
(pre-truncation) prompt by the caller. -/
def generateTextCall (config : GeminiConfig) (behavior : Nat → AttemptBehavior)
    (request : GenerateTextRequest) (inputTokens : Nat) : GenerateTextRun :=
  let providerReq := buildProviderRequest config request
  let r := withRetry (callGeminiAPIAttempt config behavior) 3
  match r.1 with
  | Except.ok v =>
    { result := Except.ok
        { text := v.text,
          model := jsOrStr request.model config.model,
          inputTokens := inputTokens,
          outputTokens := estimateTokens v.text,
          finishReason := jsOrStrD v.finishReason (ofString "stop") },
      sentRequest := some providerReq,
      attempts := r.2 }
  | Except.error (some e) =>
    { result := Except.error (parseGeminiErrorAny e),
      sentRequest := some providerReq,
      attempts := r.2 }
  | Except.error none =>
    -- Unreachable: `withRetry` with `maxRetries = 3 ≥ 1` never yields an
    -- undefined last error.
    { result := Except.error { type := GeminiErrorType.UNKNOWN, message := [] },
      sentRequest := some providerReq,
      attempts := r.2 }

/-- Source `generateText` (gemini-client.ts lines 57-127): pre-flight token
budget check with truncation (`effectiveMax = request.maxTokens || config.maxTokens`),
`TOKEN_LIMIT_EXCEEDED` when even the truncated prompt fails validation, then the
retried provider call. -/
def generateText (config : GeminiConfig) (behavior : Nat → AttemptBehavior)
    (request : GenerateTextRequest) : GenerateTextRun :=
  let inputTokens := estimateTokens request.prompt
  let effectiveMax := jsOrNat request.maxTokens config.maxTokens
  if ! validateTokenLimit inputTokens effectiveMax then
    let truncated := truncateText request.prompt effectiveMax
    let truncatedTokens := estimateTokens truncated
    if ! validateTokenLimit truncatedTokens effectiveMax then
      { result := Except.error
          { type := GeminiErrorType.TOKEN_LIMIT_EXCEEDED,
            message := ofString "Input tokens (" ++ ofString (toString inputTokens)
              ++ ofString ") exceed limit" },
        sentRequest := none,
        attempts := 0 }
    else
      generateTextCall config behavior { request with prompt := truncated } inputTokens
  else
    generateTextCall config behavior request inputTokens

/-! ### lib/ai/tag-generation.ts — tag extraction service -/

/-- Source `GenerateTagsRequest` (types.ts).  The destructuring defaults
`maxTags = 6` and `maxTokens = 2000` apply only to `undefined` (`Option.getD`). -/
structure GenerateTagsRequest where
  content : Str
  maxTags : Option Nat := none
  model : Option Str := none
  maxTokens : Option Nat := none
  deriving DecidableEq, Repr

/-- Source `GenerateTagsResponse` (types.ts). -/
structure GenerateTagsResponse where
  tags : List Str
  model : Str
  inputTokens : Nat
  outputTokens : Nat
  finishReason : Str
  deriving DecidableEq, Repr

/-- Source `createTagPrompt` (tag-generation.ts lines 93-108): the fixed Korean
template with `maxTags` and the content interpolated. -/
def createTagPrompt (content : Str) (maxTags : Nat) : Str :=
  ofString "다음 노트 내용을 분석하여 관련성 높은 태그를 최대 " ++ ofString (toString maxTags)
    ++ ofString "개 생성해주세요.\n\n요구사항:\n1. 태그는 한국어로 작성\n2. 각 태그는 2-10자 이내\n3. 구체적이고 명확한 키워드 사용\n4. 중복되지 않는 다양한 관점의 태그\n5. JSON 배열 형태로 응답\n\n노트 내용:\n"
    ++ content
    ++ ofString "\n\n응답 형식:\n[\"태그1\", \"태그2\", \"태그3\"]"

/-- JSON values, as far as the tag parser needs them. -/
inductive Json where
  | str (s : Str)
  | num (n : Int)
  | bool (b : Bool)
  | null
  deriving DecidableEq, Repr

/-- JSON insignificant whitespace. -/
def jsonWs (c : Char) : Bool := decide (c = ' ' ∨ c = '\t' ∨ c = '\n' ∨ c = '\r')

/-- Characters of a JSON string literal after the opening quote, up to the
closing quote.  Escape sequences and control characters are outside the
modelled fragment and yield a parse failure. -/
def jsonStrChars : Str → Option (Str × Str)
  | [] => none
  | c :: rest =>
    if c = '"' then some ([], rest)
    else if c = '\\' ∨ c.toNat < 0x20 then none
    else
      match jsonStrChars rest with
      | some (s, r) => some (c :: s, r)
      | none => none

/-- A JSON integer literal (optional minus sign, then digits). -/
def jsonNum (l : Str) : Option (Int × Str) :=
  let core : Str → Option (Nat × Str) := fun m =>
    let ds := m.takeWhile Char.isDigit
    if ds = [] then none
    else some (ds.foldl (fun a c => a * 10 + (c.toNat - 48)) 0, m.dropWhile Char.isDigit)
  match l with
  | '-' :: rest => (core rest).map fun p => (-(p.1 : Int), p.2)
  | _ => (core l).map fun p => ((p.1 : Int), p.2)

/-- One JSON value of the modelled fragment (string, integer, `true`, `false`,
`null`).  Nested arrays/objects, floats and escaped strings are outside the
fragment and parse as failures; every concrete reply evaluated below lies in
the fragment, where this agrees with the ECMAScript `JSON.parse`. -/
def jsonValue (l : Str) : Option (Json × Str) :=
  match l with
  | '"' :: rest => (jsonStrChars rest).map fun p => (Json.str p.1, p.2)
  | 't' :: 'r' :: 'u' :: 'e' :: rest => some (Json.bool true, rest)
  | 'f' :: 'a' :: 'l' :: 's' :: 'e' :: rest => some (Json.bool false, rest)
  | 'n' :: 'u' :: 'l' :: 'l' :: rest => some (Json.null, rest)
  | c :: _ =>
    if c = '-' ∨ c.isDigit then (jsonNum l).map fun p => (Json.num p.1, p.2) else none
  | [] => none

/-- Comma-separated JSON values up to the closing `]` (fuelled recursion; each
item consumes at least one character). -/
def jsonArrayItems : Nat → Str → Option (List Json × Str)
  | 0, _ => none
  | fuel + 1, l =>
    match jsonValue (l.dropWhile jsonWs) with
    | none => none
    | some (v, r) =>
      match r.dropWhile jsonWs with
      | ']' :: r₂ => some ([v], r₂)
      | ',' :: r₂ =>
        match jsonArrayItems fuel r₂ with
        | some (vs, r₃) => some (v :: vs, r₃)
        | none => none
      | _ => none

/-- Model of `JSON.parse` applied to a whole input expected to be a flat JSON
array; `none` models a thrown `SyntaxError`. -/
def jsonParseArray (l : Str) : Option (List Json) :=
  match l.dropWhile jsonWs with
  | '[' :: r =>
    match r.dropWhile jsonWs with
    | ']' :: r₂ => if r₂.dropWhile jsonWs = [] then some [] else none
    | r₁ =>
      match jsonArrayItems (r₁.length + 1) r₁ with
      | some (vs, rest) => if rest.dropWhile jsonWs = [] then some vs else none
      | none => none
  | _ => none

/-- Capture of the first match of `/\[([\s\S]*?)\]/`: the span between the
first `[` and the first `]` after it (no match when either is missing — note
that if no `]` follows the first `[`, none follows any later `[` either). -/
def afterFirstChar (c : Char) : Str → Option Str
  | [] => none
  | a :: rest => if a = c then some rest else afterFirstChar c rest

/-- Prefix strictly before the first occurrence of `c`, provided `c` occurs. -/
def upToFirstChar (c : Char) : Str → Option Str
  | [] => none
  | a :: rest => if a = c then some [] else (upToFirstChar c rest).map (a :: ·)

/-- The captured group of `response.match(/\[([\s\S]*?)\]/)`. -/
def findBracketSpan (l : Str) : Option Str :=
  (afterFirstChar '[' l).bind (upToFirstChar ']')

/-- Source `cleanLine.replace(/^["']|["']$/g, '')`: drop one leading and one
trailing quote character (double or single). -/
def stripQuotes (l : Str) : Str :=
  let l₁ :=
    match l with
    | c :: rest => if c = '"' ∨ c = Char.ofNat 39 then rest else l
    | [] => []
  match l₁.getLast? with
  | some c => if c = '"' ∨ c = Char.ofNat 39 then l₁.dropLast else l₁
  | none => l₁

/-- The line-splitting fallback loop of source `parseTagsResponse`: trim each
line, skip empty lines and JSON artifacts starting with `[` or `]`, strip
quotes, keep non-empty tags of at most 10 characters, and break once `maxTags`
tags are collected. -/
def lineFallbackGo (maxTags : Nat) : List Str → List Str → List Str
  | acc, [] => acc
  | acc, line :: rest =>
    let cleanLine := jsTrim line
    if cleanLine ≠ [] ∧ cleanLine.head? ≠ some '[' ∧ cleanLine.head? ≠ some ']' then
      let tag := jsTrim (stripQuotes cleanLine)
      if tag ≠ [] ∧ tag.length ≤ 10 then
        let acc₂ := acc ++ [tag]
        if maxTags ≤ acc₂.length then acc₂
        else lineFallbackGo maxTags acc₂ rest
      else lineFallbackGo maxTags acc rest
    else lineFallbackGo maxTags acc rest

/-- Source `parseTagsResponse` (tag-generation.ts lines 116-160).  When a
bracketed span exists, `JSON.parse` is attempted on it: on success the string
elements with non-empty trim survive (no length filter on this path!), on a
parse exception the outer `catch` returns `[]`.  Only when no bracketed span
exists does the line fallback run. -/
def parseTagsResponse (response : Str) (maxTags : Nat) : List Str :=
  match findBracketSpan response with
  | some inner =>
    match jsonParseArray (ofString "[" ++ inner ++ ofString "]") with
    | some parsed =>
      ((parsed.filterMap fun j =>
        match j with
        | Json.str s => if 0 < (jsTrim s).length then some (jsTrim s) else none
        | _ => none)).take maxTags
    | none => []
  | none => (lineFallbackGo maxTags [] (splitOnChar '\n' response)).take maxTags

/-- One run of `generateTags`: its outcome and the request passed to the
underlying `LlmClient.generateText` (`none` when no remote call was made). -/
structure GenerateTagsRun where
  result : Except GeminiError GenerateTagsResponse
  clientRequest : Option GenerateTextRequest
  deriving Repr

/-- Source `TagGenerationService.generateTags` (tag-generation.ts lines 22-85),
with the underlying client call supplied as an oracle.  Note the out-of-enum
kinds: validation failures throw `'INVALID_INPUT'`, and unexpected (non-
`GeminiError`) failures are wrapped with `'API_ERROR'`. -/
def generateTags (client : GenerateTextRequest → Except Thrown GenerateTextResponse)
    (request : GenerateTagsRequest) : GenerateTagsRun :=
  let content := request.content
  let maxTags := request.maxTags.getD 6
  let maxTokens := request.maxTokens.getD 2000
  if content = [] ∨ (jsTrim content).length < 100 then
    { result := Except.error
        { type := GeminiErrorType.INVALID_INPUT,
          message := ofString "노트 내용이 100자 이상이어야 합니다" },
      clientRequest := none }
  else
    let inputTokens := estimateTokens content
    let step : Except GeminiError Str :=
      if ! validateTokenLimit inputTokens maxTokens then
        let truncated := truncateText content maxTokens
        let truncatedTokens := estimateTokens truncated
        if ! validateTokenLimit truncatedTokens maxTokens then
          Except.error
            { type := GeminiErrorType.TOKEN_LIMIT_EXCEEDED,
              message := ofString "토큰 제한을 초과했습니다" }
        else Except.ok truncated
      else Except.ok content
    match step with
    | Except.error e => { result := Except.error e, clientRequest := none }
    | Except.ok finalContent =>
      let prompt := createTagPrompt finalContent maxTags
      let clientReq : GenerateTextRequest :=
        { prompt := prompt,
          model := some (jsOrStr request.model (ofString "gemini-2.0-flash-001")),
          maxTokens := some maxTokens,
          temperature := some (3 / 10) }
      match client clientReq with
      | Except.ok response =>
        { result := Except.ok
            { tags := parseTagsResponse response.text maxTags,
              model := response.model,
              inputTokens := response.inputTokens,
              outputTokens := response.outputTokens,
              finishReason := response.finishReason },
          clientRequest := some clientReq }
      | Except.error (Thrown.gemini g) =>
        { result := Except.error g, clientRequest := some clientReq }
      | Except.error (Thrown.raw e) =>
        { result := Except.error
            { type := GeminiErrorType.API_ERROR,
              message := ofString "태그 생성 중 오류가 발생했습니다: "
                ++ (if e.isErrorInstance then e.message.getD []
                    else ofString "알 수 없는 오류") },
          clientRequest := some clientReq }

/-! ### Spec-side definitions (for refinement-style claims) -/

/-- Spec §4.6 wording for claim C2: `effectiveMax = request.maxTokens ?? config.maxTokens`
(nullish coalescing: only a missing field falls back to the config). -/
def nullishEffectiveMax (request : GenerateTextRequest) (config : GeminiConfig) : Nat :=
  request.maxTokens.getD config.maxTokens

/-- A concrete configuration holding the config.ts defaults, for evaluating
counterexamples and witnesses. -/
def defaultTestConfig : GeminiConfig :=
  { apiKey := ofString "test-key", model := ofString "gemini-2.5-flash", maxTokens := 8192,
    timeout := 10000, debug := false, rateLimitPerMinute := 60 }

/-- Spec §4.3 rule 1: message contains "API key" or status 401. -/
def specRule1 (e : RawError) : Bool := msgContains e "API key" || e.status == some 401

/-- Spec §4.3 rule 2: status 429 or message contains "quota". -/
def specRule2 (e : RawError) : Bool := e.status == some 429 || msgContains e "quota"

/-- Spec §4.3 rule 3: name is the timeout marker or code "TIMEOUT". -/
def specRule3 (e : RawError) : Bool :=
  e.name == some (ofString "TimeoutError") || e.code == some (ofString "TIMEOUT")

/-- Spec §4.3 rule 4: message contains both "content" and "filter". -/
def specRule4 (e : RawError) : Bool := msgContains e "content" && msgContains e "filter"

/-- Spec §4.3 rule 5: message contains both "token" and "limit". -/
def specRule5 (e : RawError) : Bool := msgContains e "token" && msgContains e "limit"

/-- Spec §4.3 rule 6: status 404 or message contains "model". -/
def specRule6 (e : RawError) : Bool := e.status == some 404 || msgContains e "model"

/-- Spec §4.3 rule 7: code in ENOTFOUND, ECONNREFUSED. -/
def specRule7 (e : RawError) : Bool :=
  e.code == some (ofString "ENOTFOUND") || e.code == some (ofString "ECONNREFUSED")

/-! ### Helper lemmas -/

/-- Natural-number division expresses the rational ceiling: `(a + 3) / 4 = ⌈a / 4⌉`. -/
theorem natCeilDiv4 (a : Nat) : (((a + 3) / 4 : Nat) : ℤ) = ⌈(a : ℚ) / 4⌉ := by
  have hdm := Nat.div_add_mod (a + 3) 4
  have hml : (a + 3) % 4 < 4 := Nat.mod_lt _ (by norm_num)
  set m := (a + 3) / 4 with hm
  have h1 : 4 * m ≤ a + 3 := by omega
  have h2 : a ≤ 4 * m := by omega
  rw [eq_comm, Int.ceil_eq_iff]
  have hq : ((a : ℚ) / 4) * 4 = (a : ℚ) := by field_simp
  constructor
  · have h1q : (4 * (m : ℚ)) ≤ (a : ℚ) + 3 := by exact_mod_cast h1
    push_cast
    linarith
  · have h2q : (a : ℚ) ≤ 4 * (m : ℚ) := by exact_mod_cast h2
    push_cast
    linarith

/-- The sent provider request of `generateTextCall` is always the built one. -/
theorem generateTextCall_sentRequest (config : GeminiConfig)
    (behavior : Nat → AttemptBehavior) (request : GenerateTextRequest) (inputTokens : Nat) :
    (generateTextCall config behavior request inputTokens).sentRequest
      = some (buildProviderRequest config request) := by
  simp only [generateTextCall]
  cases h : (withRetry (callGeminiAPIAttempt config behavior) 3).1 with
  | ok v => simp [h]
  | error o => cases o <;> simp [h]

/-- When the budget exceeds the estimate strictly, `validateTokenLimit` fails. -/
theorem validateTokenLimit_false_of_lt (tokens eff : Nat) (h1 : 1 ≤ eff)
    (h : eff < tokens) : validateTokenLimit tokens eff = false := by
  unfold validateTokenLimit
  simp only [decide_eq_false_iff_not, not_le]
  omega

/-! ### Claim theorems -/

/-- Claim C1 (code-bug evidence).  The value the timer of `withTimeout` rejects
with is a plain `Error` whose `name` is `'Error'` and which has no `code`
property, so `parseGeminiError` classifies it as `UNKNOWN` — not `TIMEOUT` —
which is not retryable; consequently `withRetry` propagates a per-attempt
timeout as terminal after a single attempt instead of re-attempting it, contrary
to the claim (and to spec §4.5's `Timeout`-classified, retryable failure). -/
theorem c1_timeout_misclassified :
    (parseGeminiError (timeoutErrorRaw 5000)).type = GeminiErrorType.UNKNOWN
    ∧ (parseGeminiError (timeoutErrorRaw 5000)).isRetryable = false
    ∧ isNonRetryableError (Thrown.raw (timeoutErrorRaw 5000)) = true
    ∧ withRetry
        (fun _ => (Except.error (Thrown.raw (timeoutErrorRaw 5000)) : Except Thrown CallResult)) 3
      = (Except.error (some (Thrown.raw (timeoutErrorRaw 5000))), 1) :=
  ⟨by decide, by decide, by decide, rfl⟩

/-- Claim C8 (code-bug evidence).  On a JSON-array reply the parser keeps an
11-character tag (the `≤ 10` length filter exists only on the line-split
fallback path, where the same tags are filtered as the claim describes). -/
theorem c8_json_path_keeps_long_tag :
    parseTagsResponse (ofString "[\"개발\", \"아주아주아주매우긴태그\", \"코딩\"]") 5
      = [ofString "개발", ofString "아주아주아주매우긴태그", ofString "코딩"]
    ∧ 10 < (ofString "아주아주아주매우긴태그").length
    ∧ parseTagsResponse (ofString "개발\n아주아주아주매우긴태그\n코딩") 5
      = [ofString "개발", ofString "코딩"] :=
  ⟨by decide, by decide, by decide⟩

/-- Claim C9 (confirmed).  The token estimate of the empty string is 0, the
estimate is non-negative, it is monotone under concatenation, and it equals the
ceiling of `1.5 · hangulCount + 0.25 · otherCount`. -/
theorem c9_estimator_algebra :
    estimateTokens [] = 0
    ∧ (∀ t : Str, 0 ≤ estimateTokens t)
    ∧ (∀ s t : Str, estimateTokens s ≤ estimateTokens (s ++ t))
    ∧ (∀ t : Str, (estimateTokens t : ℤ) =
        ⌈(3 / 2 : ℚ) * (t.countP isHangulSyllable : ℚ)
          + (1 / 4 : ℚ) * (((t.length - t.countP isHangulSyllable : Nat)) : ℚ)⌉) := by
  refine ⟨rfl, fun t => Nat.zero_le _, fun s t => ?_, fun t => ?_⟩
  · unfold estimateTokens
    have hs : s.countP isHangulSyllable ≤ s.length := List.countP_le_length _
    have ht : t.countP isHangulSyllable ≤ t.length := List.countP_le_length _
    rw [List.countP_append, List.length_append]
    apply Nat.div_le_div_right
    omega
  · unfold estimateTokens
    have hk : t.countP isHangulSyllable ≤ t.length := List.countP_le_length _
    have harg : (3 / 2 : ℚ) * (t.countP isHangulSyllable : ℚ)
        + (1 / 4 : ℚ) * (((t.length - t.countP isHangulSyllable : Nat)) : ℚ)
        = ((6 * t.countP isHangulSyllable + (t.length - t.countP isHangulSyllable) : Nat) : ℚ) / 4 := by
      push_cast [Nat.cast_sub hk]
      ring
    rw [harg]
    exact natCeilDiv4 _

/-- Claim C10 (confirmed).  A caller-supplied `temperature` of 0 (and a
`maxTokens` of 0) is indistinguishable from an omitted field, because
`callGeminiAPI` applies `||` defaults: the provider request carries
`temperature = 0.7` (resp. `config.maxTokens`), and `generateText` behaves
identically, so a caller can never actually request temperature 0. -/
theorem c10_zero_falsy (config : GeminiConfig) (behavior : Nat → AttemptBehavior)
    (request : GenerateTextRequest) :
    buildProviderRequest config { request with temperature := some 0 }
      = buildProviderRequest config { request with temperature := none }
    ∧ (buildProviderRequest config { request with temperature := some 0 }).temperature = 7 / 10
    ∧ buildProviderRequest config { request with maxTokens := some 0 }
      = buildProviderRequest config { request with maxTokens := none }
    ∧ (buildProviderRequest config { request with maxTokens := some 0 }).maxOutputTokens
      = config.maxTokens
    ∧ generateText config behavior { request with temperature := some 0 }
      = generateText config behavior { request with temperature := none }
    ∧ generateText config behavior { request with maxTokens := some 0 }
      = generateText config behavior { request with maxTokens := none } := by
  refine ⟨?_, rfl, ?_, rfl, ?_, ?_⟩ <;>
    simp [buildProviderRequest, generateText, generateTextCall, jsOrNat, jsOrRat, jsOrStr]

/-- Claim C4, counterexample.  With `maxRetries = 0` the loop body of
`withRetry` never runs: zero attempts are performed (the claim asserts at least
one attempt for every `maxRetries`), and the propagated "last error" is the
undefined value. -/
theorem c4_counterexample :
    withRetry (fun _ => (Except.ok 0 : Except Thrown Nat)) 0 = (Except.error none, 0)
    ∧ ¬ 1 ≤ (withRetry (fun _ => (Except.ok 0 : Except Thrown Nat)) 0).2 :=
  ⟨rfl, by simp [withRetry, withRetryGo]⟩

/-- Claim C4 as amended: for every `maxRetries ≥ 1`, at least one attempt is
performed; an operation that always fails with a non-retryable error is
attempted exactly once and its error propagated; and with the default
`maxRetries = 3`, an operation failing retryably on attempts 1 and 2 and
succeeding on attempt 3 yields the success after exactly three attempts. -/
theorem c4_retry_counts {α : Type} (maxRetries : Nat) (hmr : 1 ≤ maxRetries) :
    (∀ op : Nat → Except Thrown α, 1 ≤ (withRetry op maxRetries).2)
    ∧ (∀ e : Thrown, isNonRetryableError e = true →
        withRetry (fun _ => (Except.error e : Except Thrown α)) maxRetries
          = (Except.error (some e), 1))
    ∧ (∀ op : Nat → Except Thrown α, ∀ e₁ e₂ : Thrown, ∀ v : α,
        isNonRetryableError e₁ = false → isNonRetryableError e₂ = false →
        op 1 = Except.error e₁ → op 2 = Except.error e₂ → op 3 = Except.ok v →
        withRetry op 3 = (Except.ok v, 3)) := by
  obtain ⟨m, rfl⟩ : ∃ m, maxRetries = m + 1 := ⟨maxRetries - 1, by omega⟩
  refine ⟨fun op => ?_, fun e he => ?_, fun op e₁ e₂ v h₁ h₂ hop₁ hop₂ hop₃ => ?_⟩
  · unfold withRetry withRetryGo
    cases op 1 with
    | ok v => simp
    | error e =>
      simp only
      split
      · simp
      · simp
  · unfold withRetry withRetryGo
    simp [he]
  · unfold withRetry
    simp [withRetryGo, hop₁, hop₂, hop₃, h₁, h₂]

/-- Witness for `c4_retry_counts` at concrete inputs: a non-retryable constant
failure is attempted once, and a fail-fail-succeed retryable run succeeds after
three attempts. -/
theorem c4_retry_counts_witness :
    withRetry (fun _ => (Except.error (Thrown.raw { message := some (ofString "boom") })
        : Except Thrown Nat)) 3
      = (Except.error (some (Thrown.raw { message := some (ofString "boom") })), 1)
    ∧ withRetry (fun n => if n = 3 then (Except.ok 7 : Except Thrown Nat)
        else Except.error (Thrown.raw { status := some 429 })) 3
      = (Except.ok 7, 3) := by
  refine ⟨(c4_retry_counts 3 (by decide)).2.1 _ (by decide), ?_⟩
  exact (c4_retry_counts 3 (by decide)).2.2
    (fun n => if n = 3 then (Except.ok 7 : Except Thrown Nat)
      else Except.error (Thrown.raw { status := some 429 }))
    (Thrown.raw { status := some 429 }) (Thrown.raw { status := some 429 }) 7
    (by decide) (by decide) rfl rfl rfl

/-- Claim C6 (confirmed).  Content whose trimmed length is below 100 characters
is rejected with the `'INVALID_INPUT'` kind before the underlying client is
ever invoked. -/
theorem c6_short_content_rejected
    (client : GenerateTextRequest → Except Thrown GenerateTextResponse)
    (request : GenerateTagsRequest) (h : (jsTrim request.content).length < 100) :
    (generateTags client request).result
      = Except.error
          { type := GeminiErrorType.INVALID_INPUT,
            message := ofString "노트 내용이 100자 이상이어야 합니다", statusCode := none }
    ∧ (generateTags client request).clientRequest = none := by
  unfold generateTags
  simp [h]

/-- Witness for `c6_short_content_rejected` on the repository's own test input
(a 5-character content). -/
theorem c6_short_content_rejected_witness :
    (generateTags (fun _ => Except.error (Thrown.raw { message := none }))
        ({ content := ofString "짧은 내용" } : GenerateTagsRequest)).result
      = Except.error
          { type := GeminiErrorType.INVALID_INPUT,
            message := ofString "노트 내용이 100자 이상이어야 합니다", statusCode := none }
    ∧ (generateTags (fun _ => Except.error (Thrown.raw { message := none }))
        ({ content := ofString "짧은 내용" } : GenerateTagsRequest)).clientRequest = none :=
  c6_short_content_rejected _ _ (by decide)

/-- The `||` default is positive whenever the fallback is. -/
theorem jsOrNat_pos (x : Option Nat) (d : Nat) (hd : 1 ≤ d) : 1 ≤ jsOrNat x d := by
  unfold jsOrNat
  rcases x with _ | n
  · exact hd
  · by_cases hn : n = 0 <;> simp [hn] <;> omega

/-- Claim C3 (confirmed).  `parseGeminiError` realises the spec's eight ordered
rules with first match winning; in particular a message containing "token",
"limit" and "model" is classified `TOKEN_LIMIT_EXCEEDED`, not
`MODEL_NOT_FOUND`. -/
theorem c3_classifier_order :
    (∀ e : RawError,
      (specRule1 e = true → (parseGeminiError e).type = GeminiErrorType.API_KEY_INVALID)
      ∧ (specRule1 e = false → specRule2 e = true →
          (parseGeminiError e).type = GeminiErrorType.QUOTA_EXCEEDED)
      ∧ (specRule1 e = false → specRule2 e = false → specRule3 e = true →
          (parseGeminiError e).type = GeminiErrorType.TIMEOUT)
      ∧ (specRule1 e = false → specRule2 e = false → specRule3 e = false →
          specRule4 e = true →
          (parseGeminiError e).type = GeminiErrorType.CONTENT_FILTERED)
      ∧ (specRule1 e = false → specRule2 e = false → specRule3 e = false →
          specRule4 e = false → specRule5 e = true →
          (parseGeminiError e).type = GeminiErrorType.TOKEN_LIMIT_EXCEEDED)
      ∧ (specRule1 e = false → specRule2 e = false → specRule3 e = false →
          specRule4 e = false → specRule5 e = false → specRule6 e = true →
          (parseGeminiError e).type = GeminiErrorType.MODEL_NOT_FOUND)
      ∧ (specRule1 e = false → specRule2 e = false → specRule3 e = false →
          specRule4 e = false → specRule5 e = false → specRule6 e = false →
          specRule7 e = true →
          (parseGeminiError e).type = GeminiErrorType.NETWORK_ERROR)
      ∧ (specRule1 e = false → specRule2 e = false → specRule3 e = false →
          specRule4 e = false → specRule5 e = false → specRule6 e = false →
          specRule7 e = false →
          (parseGeminiError e).type = GeminiErrorType.UNKNOWN))
    ∧ (parseGeminiError ({ message := some (ofString "model token limit") } : RawError)).type
        = GeminiErrorType.TOKEN_LIMIT_EXCEEDED := by
  refine ⟨fun e => ?_, by decide⟩
  refine ⟨?_, ?_, ?_, ?_, ?_, ?_, ?_, ?_⟩ <;>
    · intros
      simp_all [specRule1, specRule2, specRule3, specRule4, specRule5, specRule6, specRule7,
        parseGeminiError]
      try (split_ifs <;> simp_all)

/-- Witness for `c3_classifier_order` at a concrete timeout-marked error
(rule 3 fires after rules 1 and 2 fail). -/
theorem c3_classifier_order_witness :
    (parseGeminiError ({ name := some (ofString "TimeoutError") } : RawError)).type
      = GeminiErrorType.TIMEOUT :=
  ((c3_classifier_order.1 ({ name := some (ofString "TimeoutError") } : RawError)).2.2.1)
    (by decide) (by decide) (by decide)

/-- Claim C7, counterexample.  A non-`GeminiError` failure of the underlying
client call is wrapped with the out-of-enum kind `'API_ERROR'`, not with
`UNKNOWN` as the claim states. -/
theorem c7_counterexample :
    (generateTags
        (fun _ => Except.error (Thrown.raw { message := some (ofString "API Error") }))
        ({ content := List.replicate 100 '가' } : GenerateTagsRequest)).result
      = Except.error
          { type := GeminiErrorType.API_ERROR,
            message := ofString "태그 생성 중 오류가 발생했습니다: API Error", statusCode := none }
    ∧ GeminiErrorType.API_ERROR ≠ GeminiErrorType.UNKNOWN :=
  ⟨rfl, by decide⟩

/-- Claim C7 as amended: after validation passes, a thrown `GeminiError` is
re-thrown unchanged, and any other thrown value is wrapped into a `GeminiError`
carrying the out-of-enum kind `'API_ERROR'`, which behaves exactly like
`UNKNOWN` (not retryable, same generic user-facing message). -/
theorem c7_error_propagation (request : GenerateTagsRequest)
    (hne : request.content ≠ [])
    (hlen : 100 ≤ (jsTrim request.content).length)
    (hbudget : validateTokenLimit (estimateTokens request.content)
      (request.maxTokens.getD 2000) = true) :
    (∀ g : GeminiError,
      (generateTags (fun _ => Except.error (Thrown.gemini g)) request).result
        = Except.error g)
    ∧ (∀ e : RawError, e.isErrorInstance = true → ∀ m : Str, e.message = some m →
        (generateTags (fun _ => Except.error (Thrown.raw e)) request).result
          = Except.error
              { type := GeminiErrorType.API_ERROR,
                message := ofString "태그 생성 중 오류가 발생했습니다: " ++ m,
                statusCode := none }
        ∧ GeminiError.isRetryable
            { type := GeminiErrorType.API_ERROR,
              message := ofString "태그 생성 중 오류가 발생했습니다: " ++ m,
              statusCode := none } = false
        ∧ GeminiError.getUserMessage
            { type := GeminiErrorType.API_ERROR,
              message := ofString "태그 생성 중 오류가 발생했습니다: " ++ m,
              statusCode := none }
          = GeminiError.getUserMessage
              { type := GeminiErrorType.UNKNOWN, message := [], statusCode := none }) := by
  have hcond : ¬ (request.content = [] ∨ (jsTrim request.content).length < 100) := by
    push_neg
    exact ⟨hne, by omega⟩
  constructor
  · intro g
    simp [generateTags, hcond, hbudget]
  · intro e hinst m hm
    refine ⟨?_, rfl, rfl⟩
    simp [generateTags, hcond, hbudget, hinst, hm]

/-- Witness for `c7_error_propagation` on 100-Hangul-character content with a
concrete re-thrown `GeminiError` and a concrete wrapped plain error. -/
theorem c7_error_propagation_witness :
    (generateTags
        (fun _ => Except.error (Thrown.gemini
          { type := GeminiErrorType.QUOTA_EXCEEDED, message := ofString "API quota exceeded",
            statusCode := some 429 }))
        ({ content := List.replicate 100 '가' } : GenerateTagsRequest)).result
      = Except.error
          { type := GeminiErrorType.QUOTA_EXCEEDED, message := ofString "API quota exceeded",
            statusCode := some 429 }
    ∧ (generateTags
        (fun _ => Except.error (Thrown.raw { message := some (ofString "socket hang up") }))
        ({ content := List.replicate 100 '가' } : GenerateTagsRequest)).result
      = Except.error
          { type := GeminiErrorType.API_ERROR,
            message := ofString "태그 생성 중 오류가 발생했습니다: " ++ ofString "socket hang up",
            statusCode := none } := by
  have h := c7_error_propagation ({ content := List.replicate 100 '가' } : GenerateTagsRequest)
    (by decide) (by decide) (by decide)
  exact ⟨h.1 _, (h.2 { message := some (ofString "socket hang up") } rfl
    (ofString "socket hang up") rfl).1⟩

/-- Claim C2, counterexample.  With a caller-supplied `maxTokens` of 0, the
spec's `effectiveMax = request.maxTokens ?? config.maxTokens` is 0 and the
prompt estimate (2) exceeds it, yet `generateText` performs no truncation (the
code computes `request.maxTokens || config.maxTokens`, treating 0 as absent) and
invokes the remote provider with the original prompt. -/
theorem c2_counterexample :
    nullishEffectiveMax
        ({ prompt := ofString "hello", maxTokens := some 0 } : GenerateTextRequest)
        defaultTestConfig = 0
    ∧ 0 < estimateTokens (ofString "hello")
    ∧ (generateText defaultTestConfig (fun _ => AttemptBehavior.respond (ofString "Hi") none)
        ({ prompt := ofString "hello", maxTokens := some 0 } : GenerateTextRequest)).attempts = 1
    ∧ (generateText defaultTestConfig (fun _ => AttemptBehavior.respond (ofString "Hi") none)
        ({ prompt := ofString "hello", maxTokens := some 0 } : GenerateTextRequest)).sentRequest
      = some (buildProviderRequest defaultTestConfig
          ({ prompt := ofString "hello", maxTokens := some 0 } : GenerateTextRequest))
    ∧ (buildProviderRequest defaultTestConfig
        ({ prompt := ofString "hello", maxTokens := some 0 } : GenerateTextRequest)).contents
      = ofString "hello"
    ∧ truncateText (ofString "hello") 0 ≠ ofString "hello" :=
  ⟨rfl, by decide, rfl, rfl, rfl, by decide⟩

/-- Claim C2 as amended (with `effectiveMax = request.maxTokens || config.maxTokens`,
zero treated as absent): when the prompt estimate exceeds `effectiveMax`, the
client truncates first — the provider request, if any, carries the truncated
prompt — and when even the truncated prompt fails validation it fails with
`TOKEN_LIMIT_EXCEEDED` before any remote call (zero attempts, no request sent). -/
theorem c2_preflight_budget (config : GeminiConfig) (behavior : Nat → AttemptBehavior)
    (request : GenerateTextRequest) (hcfg : 1 ≤ config.maxTokens)
    (hover : jsOrNat request.maxTokens config.maxTokens < estimateTokens request.prompt) :
    (jsOrNat request.maxTokens config.maxTokens
        < estimateTokens (truncateText request.prompt (jsOrNat request.maxTokens config.maxTokens)) →
      (generateText config behavior request).attempts = 0
      ∧ (generateText config behavior request).sentRequest = none
      ∧ (generateText config behavior request).result
          = Except.error
              { type := GeminiErrorType.TOKEN_LIMIT_EXCEEDED,
                message := ofString "Input tokens ("
                  ++ ofString (toString (estimateTokens request.prompt))
                  ++ ofString ") exceed limit",
                statusCode := none })
    ∧ (validateTokenLimit
        (estimateTokens (truncateText request.prompt (jsOrNat request.maxTokens config.maxTokens)))
        (jsOrNat request.maxTokens config.maxTokens) = true →
      (generateText config behavior request).sentRequest
        = some (buildProviderRequest config
            { request with
                prompt := truncateText request.prompt
                  (jsOrNat request.maxTokens config.maxTokens) })) := by
  have heff1 : 1 ≤ jsOrNat request.maxTokens config.maxTokens :=
    jsOrNat_pos _ _ hcfg
  have hval : validateTokenLimit (estimateTokens request.prompt)
      (jsOrNat request.maxTokens config.maxTokens) = false :=
    validateTokenLimit_false_of_lt _ _ heff1 hover
  constructor
  · intro hover₂
    have hval₂ : validateTokenLimit
        (estimateTokens (truncateText request.prompt (jsOrNat request.maxTokens config.maxTokens)))
        (jsOrNat request.maxTokens config.maxTokens) = false :=
      validateTokenLimit_false_of_lt _ _ heff1 hover₂
    refine ⟨?_, ?_, ?_⟩ <;> simp [generateText, hval, hval₂]
  · intro hok
    simp [generateText, hval, hok, generateTextCall_sentRequest]

/-- Witness for `c2_preflight_budget`: a mixed-script prompt whose truncation
still exceeds the budget short-circuits with zero provider attempts. -/
theorem c2_preflight_budget_witness :
    (generateText defaultTestConfig (fun _ => AttemptBehavior.timesOut)
        ({ prompt := ofString "가가aaaaaaaa", maxTokens := some 1 } : GenerateTextRequest)).attempts = 0
    ∧ (generateText defaultTestConfig (fun _ => AttemptBehavior.timesOut)
        ({ prompt := ofString "가가aaaaaaaa", maxTokens := some 1 } : GenerateTextRequest)).sentRequest
      = none := by
  have h := (c2_preflight_budget defaultTestConfig (fun _ => AttemptBehavior.timesOut)
    ({ prompt := ofString "가가aaaaaaaa", maxTokens := some 1 } : GenerateTextRequest)
    (by decide) (by decide)).1 (by decide)
  exact ⟨h.1, h.2.1⟩

/-- On Hangul-free text the estimate is `⌈len / 4⌉`. -/
theorem estimateTokens_no_hangul (l : Str) (h : ∀ c ∈ l, isHangulSyllable c = false) :
    estimateTokens l = (l.length + 3) / 4 := by
  unfold estimateTokens
  have hz : l.countP isHangulSyllable = 0 := by
    rw [List.countP_eq_zero]
    intro a ha
    simp [h a ha]
  simp [hz]

/-- On all-Hangul text the estimate is `⌈6 · len / 4⌉`. -/
theorem estimateTokens_all_hangul (l : Str) (h : ∀ c ∈ l, isHangulSyllable c = true) :
    estimateTokens l = (6 * l.length + 3) / 4 := by
  unfold estimateTokens
  have hz : l.countP isHangulSyllable = l.length := by
    rw [List.countP_eq_length]
    intro a ha
    exact h a ha
  simp [hz]

/-- On the truncating branch, `truncateText` returns a `take`-prefix whose
length bound is the computed target length. -/
theorem truncateText_prefix_bound (text : Str) (maxTokens : Nat)
    (h : ¬ estimateTokens text ≤ maxTokens) :
    ∃ m, truncateText text maxTokens = text.take m
      ∧ m ≤ text.length * maxTokens * 9 / (estimateTokens text * 10) := by
  unfold truncateText
  simp only [h, if_false]
  cases hls : lastIndexOfChar ' '
      (text.take (text.length * maxTokens * 9 / (estimateTokens text * 10))) with
  | none =>
    exact ⟨text.length * maxTokens * 9 / (estimateTokens text * 10), by simp [hls], le_refl _⟩
  | some i =>
    by_cases hi : 0 < i
    · refine ⟨min i (text.length * maxTokens * 9 / (estimateTokens text * 10)), ?_,
        min_le_right _ _⟩
      simp [hls, hi, List.take_take]
    · exact ⟨text.length * maxTokens * 9 / (estimateTokens text * 10), by simp [hls, hi],
        le_refl _⟩

/-- Arithmetic core of the truncation bound, Hangul-free case: any prefix length
below the target keeps the estimate within the budget. -/
theorem arith_latin_bound (n max : Nat) (hmax : 1 ≤ max) (hgt : max < (n + 3) / 4) :
    ∀ m, m ≤ n * max * 9 / ((n + 3) / 4 * 10) → (m + 3) / 4 ≤ max := by
  intro m hm
  set e := (n + 3) / 4 with he
  have he1 : 1 ≤ e := by omega
  have hn4 : n ≤ 4 * e := by
    have h1 := Nat.div_add_mod (n + 3) 4
    have h2 : (n + 3) % 4 < 4 := Nat.mod_lt _ (by norm_num)
    omega
  have hb : n * (9 * max) ≤ (4 * e) * (9 * max) := Nat.mul_le_mul_right _ hn4
  have hlt : n * max * 9 < (4 * max + 1) * (e * 10) := by nlinarith [hb, he1]
  have ht : n * max * 9 / (e * 10) < 4 * max + 1 :=
    (Nat.div_lt_iff_lt_mul (by omega)).mpr hlt
  have hm4 : m ≤ 4 * max := by omega
  have hfin : (m + 3) / 4 < max + 1 := by
    rw [Nat.div_lt_iff_lt_mul (by norm_num : (0 : Nat) < 4)]
    omega
  omega

/-- Arithmetic core of the truncation bound, all-Hangul case. -/
theorem arith_hangul_bound (n max : Nat) (hmax : 1 ≤ max) (hgt : max < (6 * n + 3) / 4) :
    ∀ m, m ≤ n * max * 9 / ((6 * n + 3) / 4 * 10) → (6 * m + 3) / 4 ≤ max := by
  intro m hm
  set e := (6 * n + 3) / 4 with he
  have he1 : 1 ≤ e := by omega
  have hn4 : 6 * n ≤ 4 * e := by
    have h1 := Nat.div_add_mod (6 * n + 3) 4
    have h2 : (6 * n + 3) % 4 < 4 := Nat.mod_lt _ (by norm_num)
    omega
  have htm : (n * max * 9 / (e * 10)) * (e * 10) ≤ n * max * 9 := Nat.div_mul_le_self _ _
  have hb : (6 * n) * (9 * max) ≤ (4 * e) * (9 * max) := Nat.mul_le_mul_right _ hn4
  have hcancel : (12 * e) * (5 * (n * max * 9 / (e * 10))) ≤ (12 * e) * (3 * max) := by
    nlinarith [htm, hb]
  have h53 : 5 * (n * max * 9 / (e * 10)) ≤ 3 * max :=
    Nat.le_of_mul_le_mul_left hcancel (by omega)
  have hm5 : 5 * m ≤ 3 * max := by omega
  have hfin : (6 * m + 3) / 4 < max + 1 := by
    rw [Nat.div_lt_iff_lt_mul (by norm_num : (0 : Nat) < 4)]
    omega
  omega

/-- Claim C5, counterexample.  For the mixed-script text `"가가aaaaaaaa"` and
budget 1, the truncated text still estimates to 2 tokens: `truncateText` sizes
the cut from the average density, but the surviving prefix is all-Hangul and
denser than average. -/
theorem c5_counterexample :
    estimateTokens (ofString "가가aaaaaaaa") = 5
    ∧ truncateText (ofString "가가aaaaaaaa") 1 = ofString "가"
    ∧ estimateTokens (truncateText (ofString "가가aaaaaaaa") 1) = 2
    ∧ ¬ estimateTokens (truncateText (ofString "가가aaaaaaaa") 1) ≤ 1 :=
  ⟨by decide, by decide, by decide, by decide⟩

/-- Claim C5 as amended: the bound `estimateTokens (truncateText t max) ≤ max`
holds for every positive budget whenever the text is uniformly scripted (all
Hangul-syllable characters, or none); for mixed-script text it can fail. -/
theorem c5_truncation_bound (text : Str) (maxTokens : Nat) (hmax : 1 ≤ maxTokens)
    (huniform : (∀ c ∈ text, isHangulSyllable c = true)
      ∨ (∀ c ∈ text, isHangulSyllable c = false)) :
    estimateTokens (truncateText text maxTokens) ≤ maxTokens := by
  by_cases hle : estimateTokens text ≤ maxTokens
  · have heq : truncateText text maxTokens = text := by
      unfold truncateText
      simp [hle]
    rw [heq]
    exact hle
  · obtain ⟨m, heq, hm⟩ := truncateText_prefix_bound text maxTokens hle
    rw [heq]
    have hlen : (text.take m).length ≤ m := by
      simp [List.length_take]
    rcases huniform with hall | hnone
    · have hpre : ∀ c ∈ text.take m, isHangulSyllable c = true :=
        fun c hc => hall c (List.take_subset _ _ hc)
      rw [estimateTokens_all_hangul _ hpre]
      rw [estimateTokens_all_hangul text hall] at hm hle
      have hgt : maxTokens < (6 * text.length + 3) / 4 := by omega
      calc (6 * (text.take m).length + 3) / 4
          ≤ (6 * m + 3) / 4 := Nat.div_le_div_right (by omega)
        _ ≤ maxTokens := arith_hangul_bound text.length maxTokens hmax hgt m hm
    · have hpre : ∀ c ∈ text.take m, isHangulSyllable c = false :=
        fun c hc => hnone c (List.take_subset _ _ hc)
      rw [estimateTokens_no_hangul _ hpre]
      rw [estimateTokens_no_hangul text hnone] at hm hle
      have hgt : maxTokens < (text.length + 3) / 4 := by omega
      calc ((text.take m).length + 3) / 4
          ≤ (m + 3) / 4 := Nat.div_le_div_right (by omega)
        _ ≤ maxTokens := arith_latin_bound text.length maxTokens hmax hgt m hm

/-- Witness for `c5_truncation_bound` on a 24-character Hangul-free text with
budget 1 (the truncated text estimates to exactly 1 token). -/
theorem c5_truncation_bound_witness :
    estimateTokens (truncateText (ofString "aaaaaaaaaaaaaaaaaaaaaaaa") 1) = 1
    ∧ estimateTokens (truncateText (ofString "aaaaaaaaaaaaaaaaaaaaaaaa") 1) ≤ 1 :=
  ⟨by decide, c5_truncation_bound (ofString "aaaaaaaaaaaaaaaaaaaaaaaa") 1 (by decide)
    (Or.inr (by decide))⟩

end AiMemo
